import Mathlib

set_option allowUnsafeReducibility true
attribute [semireducible] Rat.add Rat.mul Rat.div Rat.sub Rat.inv Rat.neg

/-!
Shallow embedding of the CTG analysis core (`ctg_analysis/` and
`services/analysis_service.py`): signal primitives, variability estimation,
the FIGO/NICE and NICHD/ACOG classifiers with risk-factor adjustment, the
sliding-window hypoxia-risk estimator, the heuristic outcome predictor and
the forecast synthesizer.  Python floats are modelled as rationals, Python
lists as `List`, dictionaries with fixed key sets as structures.  Display
only string fields (localized narrative texts) are elided from result
structures; every field a theorem touches is embedded.
-/

namespace CTG

/-- Insert a rational into an already sorted list, keeping it sorted.
Used to realize the sorting step of `np.median`. -/
def insertSorted (x : ℚ) : List ℚ → List ℚ
  | [] => [x]
  | y :: ys => if x ≤ y then x :: y :: ys else y :: insertSorted x ys

/-- Sort a list of rationals (insertion sort). -/
def sortQ (xs : List ℚ) : List ℚ := xs.foldr insertSorted []

/-- `np.median`: middle element of the sorted list for odd length, mean of
the two middle elements for even length.  `np.median([])` is NaN in numpy;
every call site in the repository guards against the empty list, so the `0`
returned here on `[]` is unreachable at those call sites. -/
def npMedian (xs : List ℚ) : ℚ :=
  let s := sortQ xs
  let n := s.length
  if n = 0 then 0
  else if n % 2 = 1 then s.getD (n / 2) 0
  else (s.getD (n / 2 - 1) 0 + s.getD (n / 2) 0) / 2

/-- Round to the nearest integer, ties to the even integer (the rounding
mode of Python's built-in `round`). -/
def roundHalfEven (q : ℚ) : ℤ :=
  if Int.fract q < 1 / 2 then ⌊q⌋
  else if 1 / 2 < Int.fract q then ⌊q⌋ + 1
  else if 2 ∣ ⌊q⌋ then ⌊q⌋ else ⌊q⌋ + 1

/-- Python `round(q, 1)`. -/
def pyRound1 (q : ℚ) : ℚ := (roundHalfEven (q * 10) : ℚ) / 10

/-- Python `round(q, 2)`. -/
def pyRound2 (q : ℚ) : ℚ := (roundHalfEven (q * 100) : ℚ) / 100

/-- `calc_baseline` from `ctg_analysis/common.py`: drop samples outside
[50, 200]; if none remain (or the input is empty) return 0.0; with fewer
than `windowSize` samples return the plain median; otherwise the median of
the medians of all sliding windows of size `windowSize`, step 1. -/
def calc_baseline (fhr_series : List ℚ) (window_size : ℕ := 10) : ℚ :=
  if fhr_series = [] then 0
  else
    let filtered := fhr_series.filter (fun fhr => decide (50 ≤ fhr ∧ fhr ≤ 200))
    if filtered = [] then 0
    else if filtered.length < window_size then npMedian filtered
    else
      let windowed_medians :=
        (List.range (filtered.length - window_size + 1)).map
          (fun i => npMedian ((filtered.drop i).take window_size))
      npMedian windowed_medians

/-- The run-length loop shared verbatim by `detect_accelerations` and
`detect_decelerations` in `ctg_analysis/common.py`: walk the series keeping
(in_run, run_length, count); when a run of `p`-samples ends (or the series
ends inside one) it contributes one event iff its length reached `minLen`. -/
def detectRunLoop (p : ℚ → Bool) (minLen : ℕ) :
    List ℚ → Bool → ℕ → ℕ → ℕ
  | [], inRun, len, cnt => if inRun ∧ minLen ≤ len then cnt + 1 else cnt
  | fhr :: rest, inRun, len, cnt =>
    if p fhr then
      detectRunLoop p minLen rest true (if inRun then len + 1 else 1) cnt
    else
      detectRunLoop p minLen rest false 0
        (if inRun ∧ minLen ≤ len then cnt + 1 else cnt)

/-- `detect_accelerations(fhr_series, baseline, ga_weeks=37)`: threshold 10
below 32 weeks of gestation, else 15; counts maximal runs of samples
`≥ baseline + threshold` of length ≥ 15, flushing an open run at the end. -/
def detect_accelerations (fhr_series : List ℚ) (baseline : ℚ)
    (ga_weeks : ℤ := 37) : ℕ :=
  if fhr_series = [] ∨ baseline = 0 then 0
  else
    let threshold : ℚ := if ga_weeks < 32 then 10 else 15
    detectRunLoop (fun fhr => decide (baseline + threshold ≤ fhr)) 15
      fhr_series false 0 0

/-- `detect_decelerations(fhr_series, baseline, threshold=15)`: counts
maximal runs of samples `≤ baseline - threshold` of length ≥ 15, flushing
an open run at the end.  The threshold is a plain parameter defaulting to
15 (it does not depend on gestational age). -/
def detect_decelerations (fhr_series : List ℚ) (baseline : ℚ)
    (threshold : ℚ := 15) : ℕ :=
  if fhr_series = [] ∨ baseline = 0 then 0
  else
    detectRunLoop (fun fhr => decide (fhr ≤ baseline - threshold)) 15
      fhr_series false 0 0

/-- The lengths of the maximal contiguous runs of `p`-samples in a list,
in order.  A sample extends the front run exactly when the next sample is
also a `p`-sample; otherwise it opens a run of length 1. -/
def runLengths (p : ℚ → Bool) : List ℚ → List ℕ
  | [] => []
  | x :: xs =>
    let r := runLengths p xs
    if p x then
      if (xs.head?.map p).getD false then (r.headD 0 + 1) :: r.tail
      else 1 :: r
    else r

/-- Specification-level count of qualifying runs: the number of maximal
contiguous runs of `p`-samples whose length is at least `minLen`.  Stated
independently of the single-pass loop above so that
`detectRunLoop = countLongRuns` is a meaningful theorem. -/
def countLongRuns (p : ℚ → Bool) (minLen : ℕ) (l : List ℚ) : ℕ :=
  (runLengths p l).countP (fun k => decide (minLen ≤ k))

/-- Run lengths of a list whose front run has already accumulated `len`
`p`-samples: the continuation state of `detectRunLoop` made explicit. -/
def extendRuns (len : ℕ) (p : ℚ → Bool) (l : List ℚ) : List ℕ :=
  match l with
  | [] => [len]
  | x :: _ =>
    if p x then (len + (runLengths p l).headD 0) :: (runLengths p l).tail
    else len :: runLengths p l

/-- `calculate_short_term_variability`: mean absolute successive
difference; 0.0 for series shorter than two samples. -/
def calculate_short_term_variability (fhr_series : List ℚ) : ℚ :=
  if fhr_series.length < 2 then 0
  else
    let differences := (fhr_series.zip fhr_series.tail).map
      (fun p => |p.2 - p.1|)
    differences.sum / differences.length

/-- `calculate_variability` at its default method `"short_term"`, the only
mode used anywhere in the repository: 0.0 for fewer than two samples, else
the short-term variability. -/
def calculate_variability (fhr_series : List ℚ) : ℚ :=
  if fhr_series.length < 2 then 0
  else calculate_short_term_variability fhr_series

/-- `classify_variability`: 0 → absent, (0,5) → minimal, [5,25] → moderate,
otherwise marked. -/
def classify_variability (variability : ℚ) : String :=
  if variability = 0 then "absent"
  else if variability < 5 then "minimal"
  else if 5 ≤ variability ∧ variability ≤ 25 then "moderate"
  else "marked"

/-- The fixed risk-factor key set of `ctg_analysis/risk_adjustment.py`
(`RISK_SCORES`); a Python dict over exactly these keys is modelled as a
structure of booleans. -/
structure RiskFactors where
  diabetes : Bool
  anemia : Bool
  hypertension : Bool
  preeclampsia : Bool
  infections : Bool
  multiple : Bool
  placenta : Bool
  term : Bool

/-- `calculate_risk_score`: weighted sum of the present factors with the
static weights of `RISK_SCORES` (diabetes 2, anemia 1, hypertension 2,
preeclampsia 3, infections 2, multiple 2, placenta 3, term 2). -/
def calculate_risk_score (rf : RiskFactors) : ℤ :=
  (if rf.diabetes then 2 else 0) + (if rf.anemia then 1 else 0)
    + (if rf.hypertension then 2 else 0) + (if rf.preeclampsia then 3 else 0)
    + (if rf.infections then 2 else 0) + (if rf.multiple then 2 else 0)
    + (if rf.placenta then 3 else 0) + (if rf.term then 2 else 0)

/-- Result record of the two `adjust_*_classification` functions.  The
localized `adjustment_reason` text is elided; its presence is equivalent to
`adjustment_applied`. -/
structure Adjustment where
  original_label : String
  adjusted_label : String
  code : ℕ
  adjustment_applied : Bool
  risk_score : ℤ

/-- The FIGO `code_map` with Python's `dict.get(label, 0)` fallback. -/
def figoCodeMap (label : String) : ℕ :=
  if label = "Normal" then 0
  else if label = "Suspicious" then 1
  else if label = "Pathological" then 2
  else 0

/-- `adjust_figo_classification`: for `risk_score ≥ 4` escalate Normal to
Suspicious and Suspicious to Pathological, otherwise keep the label. -/
def adjust_figo_classification (base_label : String) (risk_score : ℤ) :
    Adjustment :=
  let adjusted : String × Bool :=
    if 4 ≤ risk_score then
      if base_label = "Normal" then ("Suspicious", true)
      else if base_label = "Suspicious" then ("Pathological", true)
      else (base_label, false)
    else (base_label, false)
  { original_label := base_label
    adjusted_label := adjusted.1
    code := figoCodeMap adjusted.1
    adjustment_applied := adjusted.2
    risk_score := risk_score }

/-- The NICHD `code_map` with Python's `dict.get(label, 0)` fallback. -/
def nichdCodeMap (label : String) : ℕ :=
  if label = "Category I" then 0
  else if label = "Category II" then 1
  else if label = "Category III" then 2
  else 0

/-- `adjust_nichd_classification`: for `risk_score ≥ 4` escalate Category I
to Category II and Category II to Category III, otherwise keep the label. -/
def adjust_nichd_classification (base_label : String) (risk_score : ℤ) :
    Adjustment :=
  let adjusted : String × Bool :=
    if 4 ≤ risk_score then
      if base_label = "Category I" then ("Category II", true)
      else if base_label = "Category II" then ("Category III", true)
      else (base_label, false)
    else (base_label, false)
  { original_label := base_label
    adjusted_label := adjusted.1
    code := nichdCodeMap adjusted.1
    adjustment_applied := adjusted.2
    risk_score := risk_score }

/-- `evaluate_baseline` (figo_nice.py): reassuring on [110,160],
non-reassuring on [100,110) and [161,180], else abnormal. -/
def evaluate_baseline (baseline : ℚ) : String :=
  if 110 ≤ baseline ∧ baseline ≤ 160 then "reassuring"
  else if (100 ≤ baseline ∧ baseline < 110) ∨ (161 ≤ baseline ∧ baseline ≤ 180)
    then "non-reassuring"
  else "abnormal"

/-- `evaluate_variability`: moderate reassuring, minimal or marked
non-reassuring, absent abnormal.  Only the class argument is consulted
(the numeric value is passed along in the source but unused). -/
def evaluate_variability (_variability : ℚ) (var_class : String) : String :=
  if var_class = "moderate" then "reassuring"
  else if var_class = "minimal" ∨ var_class = "marked" then "non-reassuring"
  else "abnormal"

/-- `evaluate_accelerations`: at least two accelerations is reassuring. -/
def evaluate_accelerations (accels : ℕ) : String :=
  if 2 ≤ accels then "reassuring" else "non-reassuring"

/-- `evaluate_decelerations`: none reassuring, fewer than three
non-reassuring, three or more abnormal. -/
def evaluate_decelerations (decels_count : ℕ) : String :=
  if decels_count = 0 then "reassuring"
  else if decels_count < 3 then "non-reassuring"
  else "abnormal"

/-- FIGO base classification from the four criterion evaluations: all
reassuring gives Normal(0), any abnormal gives Pathological(2), anything
else Suspicious(1). -/
def figoBaseClassification (evaluations : List String) : String × ℕ :=
  if evaluations.all (fun ev => ev = "reassuring") then ("Normal", 0)
  else if evaluations.contains "abnormal" then ("Pathological", 2)
  else ("Suspicious", 1)

/-- The fields of the `classify_figo` result dict consulted by theorems
(display rounding included for the numeric report fields). -/
structure FigoResult where
  baseline : ℚ
  variability : ℚ
  variability_class : String
  accelerations : ℕ
  decelerations : ℕ
  base_label : String
  base_code : ℕ
  final_label : String
  final_code : ℕ
  adjustment_applied : Bool
  risk_score : ℤ

/-- `classify_figo(fhr_series, risk_factors, ga_weeks=37)`: compute the
primitives, evaluate the four criteria, derive the base label, then apply
the risk-score adjustment.  `final_*` mirrors both the nested
`final_classification` dict and the top-level `label`/`code` keys, which
the source assigns the same values. -/
def classify_figo (fhr_series : List ℚ) (risk_factors : RiskFactors)
    (ga_weeks : ℤ := 37) : FigoResult :=
  let baseline := calc_baseline fhr_series
  let variability_value := calculate_variability fhr_series
  let var_class := classify_variability variability_value
  let accels := detect_accelerations fhr_series baseline ga_weeks
  let decels_count := detect_decelerations fhr_series baseline
  let baseline_eval := evaluate_baseline baseline
  let variability_eval := evaluate_variability variability_value var_class
  let accels_eval := evaluate_accelerations accels
  let decels_eval := evaluate_decelerations decels_count
  let evaluations := [baseline_eval, variability_eval, accels_eval, decels_eval]
  let base := figoBaseClassification evaluations
  let risk_score := calculate_risk_score risk_factors
  let adjustment := adjust_figo_classification base.1 risk_score
  { baseline := pyRound1 baseline
    variability := pyRound1 variability_value
    variability_class := var_class
    accelerations := accels
    decelerations := decels_count
    base_label := base.1
    base_code := base.2
    final_label := adjustment.adjusted_label
    final_code := adjustment.code
    adjustment_applied := adjustment.adjustment_applied
    risk_score := risk_score }

/-- `classify_nichd_category`: Category I for baseline in [110,160] with
moderate variability and pattern none/early; Category III for absent
variability together with a late/variable pattern, bradycardia, or more
than three decelerations; Category II otherwise. -/
def classify_nichd_category (baseline : ℚ) (var_class : String) (_accels : ℕ)
    (decels_count : ℕ) (dec_pattern : String) : String × ℕ :=
  if 110 ≤ baseline ∧ baseline ≤ 160 ∧ var_class = "moderate" ∧
      (dec_pattern = "none" ∨ dec_pattern = "early") then ("Category I", 0)
  else if var_class = "absent" ∧
      (dec_pattern = "late" ∨ dec_pattern = "variable" ∨ baseline < 110 ∨
        3 < decels_count) then ("Category III", 2)
  else ("Category II", 1)

/-- The fields of the `classify_nichd` result dict consulted by theorems. -/
structure NichdResult where
  baseline : ℚ
  variability : ℚ
  variability_class : String
  accelerations : ℕ
  decelerations_count : ℕ
  dec_pattern : String
  base_label : String
  base_code : ℕ
  final_label : String
  final_code : ℕ
  adjustment_applied : Bool
  risk_score : ℤ

/-- `classify_nichd(fhr_series, risk_factors, ga_weeks=37)`: compute the
primitives, approximate the deceleration pattern from the count alone
(0 none, 1-2 early, 3-5 variable, more late), classify by the NICHD
criteria, then apply the risk-score adjustment. -/
def classify_nichd (fhr_series : List ℚ) (risk_factors : RiskFactors)
    (ga_weeks : ℤ := 37) : NichdResult :=
  let baseline := calc_baseline fhr_series
  let variability_value := calculate_variability fhr_series
  let var_class := classify_variability variability_value
  let accels := detect_accelerations fhr_series baseline ga_weeks
  let decels_count := detect_decelerations fhr_series baseline
  let dec_pattern :=
    if decels_count = 0 then "none"
    else if decels_count ≤ 2 then "early"
    else if decels_count ≤ 5 then "variable"
    else "late"
  let base := classify_nichd_category baseline var_class accels decels_count
    dec_pattern
  let risk_score := calculate_risk_score risk_factors
  let adjustment := adjust_nichd_classification base.1 risk_score
  { baseline := pyRound1 baseline
    variability := pyRound1 variability_value
    variability_class := var_class
    accelerations := accels
    decelerations_count := decels_count
    dec_pattern := dec_pattern
    base_label := base.1
    base_code := base.2
    final_label := adjustment.adjusted_label
    final_code := adjustment.code
    adjustment_applied := adjustment.adjustment_applied
    risk_score := risk_score }

/-- Python `range(start, stop, step)` for a natural start and positive
step, as the list of produced indices. -/
def pyRange (start : ℕ) (stop : ℤ) (step : ℕ) : List ℕ :=
  if h : (start : ℤ) < stop ∧ 0 < step then
    start :: pyRange (start + step) stop step
  else []
termination_by (stop - start).toNat
decreasing_by omega

/-- One point of the hypoxia-risk time series (`{"time": ..., "risk": ...}`). -/
structure RiskPoint where
  time : ℚ
  risk : ℚ

/-- `detect_accelerations_in_window`: pointwise threshold test, returning
presence and the number of qualifying samples (no run-length rule). -/
def detect_accelerations_in_window (window_fhr : List ℚ) (baseline : ℚ)
    (threshold : ℚ) : Bool × ℕ :=
  (window_fhr.any (fun fhr => decide (baseline + threshold ≤ fhr)),
   window_fhr.countP (fun fhr => decide (baseline + threshold ≤ fhr)))

/-- `detect_decelerations_in_window`: pointwise threshold test.  The
`baseline is not None` conjunct of the source's count is vacuous here
(the baseline is a plain number) and is dropped. -/
def detect_decelerations_in_window (window_fhr : List ℚ) (baseline : ℚ)
    (threshold : ℚ) : Bool × ℕ :=
  (window_fhr.any (fun fhr => decide (fhr ≤ baseline - threshold)),
   window_fhr.countP (fun fhr => decide (fhr ≤ baseline - threshold)))

/-- The state-machine loop of `count_contractions`: count the maximal runs
of samples strictly above the threshold. -/
def countContractionsLoop (threshold : ℚ) :
    List ℚ → Bool → ℕ → ℕ
  | [], _, contractions => contractions
  | uc :: rest, in_contraction, contractions =>
    if threshold < uc then
      if in_contraction then countContractionsLoop threshold rest true contractions
      else countContractionsLoop threshold rest true (contractions + 1)
    else countContractionsLoop threshold rest false contractions

/-- `count_contractions(uc_series, threshold=15.0)`. -/
def count_contractions (uc_series : List ℚ) (threshold : ℚ := 15) : ℕ :=
  if uc_series = [] then 0
  else countContractionsLoop threshold uc_series false 0

/-- `calculate_window_risk`: per-window integer scores for baseline,
variability, deceleration presence, acceleration absence and the two count
terms, summed, divided by 10 and clamped to [0,1].  The `uc_count`
argument is accepted but unused, as in the source. -/
def calculate_window_risk (baseline variability : ℚ) (_uc_count : ℕ)
    (accel_present decel_present : Bool) (accel_count decel_count : ℕ) : ℚ :=
  let baseline_score : ℤ :=
    if baseline = 0 then 2
    else if 110 ≤ baseline ∧ baseline ≤ 160 then 0
    else if (105 ≤ baseline ∧ baseline < 110) ∨
        (160 < baseline ∧ baseline ≤ 165) then 1
    else 2
  let var_score : ℤ :=
    if variability = 0 then 2
    else if 5 ≤ variability then 0
    else if 3 ≤ variability ∧ variability < 5 then 1
    else 2
  let dec_score : ℤ := if decel_present then 2 else 0
  let acc_score : ℤ := if accel_present then 0 else 1
  let acc_count_score : ℤ := max 0 (min 1 (2 - (accel_count : ℤ)))
  let dec_count_score : ℤ := min 2 ((decel_count : ℤ) / 5)
  let total_score : ℤ := baseline_score + var_score + dec_score + acc_score
    + acc_count_score + dec_count_score
  max 0 (min 1 ((total_score : ℚ) / 10))

/-- `calculate_hypoxia_risk`: slide a window of `window_minutes` minutes
with a step of `step_minutes` minutes (at the assumed 1 Hz, 60 samples
per minute) over the FHR series; per window take the median FHR as
baseline, run the pointwise event tests (thresholds 15), count the UC
contractions, score the window, and anchor the result at the window's
center timestamp (window start if the center index overruns the
timestamp series; the source would raise on a start index out of range,
which cannot happen for aligned series, so `getD` never takes its
default there). -/
def calculate_hypoxia_risk (fhr_series uc_series : List ℚ)
    (variability_value : ℚ) (time_series : List ℚ)
    (window_minutes : ℕ := 2) (step_minutes : ℕ := 1) : List RiskPoint :=
  let THRESH_ACCEL : ℚ := 15
  let THRESH_DECEL : ℚ := 15
  let window_size := window_minutes * 60
  let step_size := step_minutes * 60
  (pyRange 0 ((fhr_series.length : ℤ) - window_size + 1) step_size).map
    (fun i =>
      let window_fhr := (fhr_series.drop i).take window_size
      let window_uc :=
        if i + window_size ≤ uc_series.length then
          (uc_series.drop i).take window_size
        else []
      let baseline := if window_fhr = [] then 0 else npMedian window_fhr
      let accel := detect_accelerations_in_window window_fhr baseline THRESH_ACCEL
      let decel := detect_decelerations_in_window window_fhr baseline THRESH_DECEL
      let uc_count := if window_uc = [] then 0 else count_contractions window_uc
      let risk := calculate_window_risk baseline variability_value uc_count
        accel.1 decel.1 accel.2 decel.2
      let time_center :=
        if i + window_size / 2 < time_series.length then
          time_series.getD (i + window_size / 2) 0
        else time_series.getD i 0
      { time := time_center, risk := risk })

/-- The feature dictionary of `extract_features` (ai_module.py); only the
fields `predict_timeframe` reads are listed, the rest of the dict is
carried through unchanged by the source. -/
structure Features where
  fhr_mean : ℚ
  fhr_std : ℚ
  fhr_trend : ℚ
  risk_score : ℚ

/-- The per-horizon output dict of `predict_timeframe`; the localized
`prediction` narrative is elided. -/
structure Prediction where
  status : String
  risk_level : ℚ
  confidence : ℚ
  timeframe : String

/-- The heuristic risk accumulation of `predict_timeframe` before the
horizon adjustment: +0.3 for an out-of-range mean, +0.3 / +0.2 for low /
high standard deviation, +0.2 / +0.1 for a falling / rising trend, plus
the risk score over 10 capped at 0.3. -/
def accumulatedRisk (features : Features) : ℚ :=
  let r0 : ℚ := 0
  let r1 := if features.fhr_mean < 110 ∨ 160 < features.fhr_mean
    then r0 + 3 / 10 else r0
  let r2 := if features.fhr_std < 5 then r1 + 3 / 10
    else if 25 < features.fhr_std then r1 + 2 / 10 else r1
  let r3 := if features.fhr_trend < -(1 / 2) then r2 + 2 / 10
    else if 1 / 2 < features.fhr_trend then r2 + 1 / 10 else r2
  r3 + min (features.risk_score / 10) (3 / 10)

/-- `predict_timeframe(features, timeframe)`: accumulate the heuristic
risk, scale it by the horizon factor (1.0 / 1.2 / 1.5 for 15min / 30min /
any other horizon), clamp to [0,1], and bucketize into
normal / warning / danger with fixed confidences.  The reported
`risk_level` is rounded to two decimals. -/
def predict_timeframe (features : Features) (timeframe : String) : Prediction :=
  let base := accumulatedRisk features
  let scaled :=
    if timeframe = "15min" then base
    else if timeframe = "30min" then base * (12 / 10)
    else base * (15 / 10)
  let risk_level := min (max scaled 0) 1
  let (status, confidence) : String × ℚ :=
    if risk_level < 3 / 10 then ("normal", 85 / 100)
    else if risk_level < 6 / 10 then ("warning", 70 / 100)
    else ("danger", 60 / 100)
  { status := status
    risk_level := pyRound2 risk_level
    confidence := confidence
    timeframe := timeframe }

/-- `_calculate_risk_trend` (services/analysis_service.py): the
least-squares slope of the risk values against their indices, scaled by 10
and clamped to [−1,1]; 0.0 for fewer than two points or a degenerate
denominator. -/
def calculate_risk_trend (risk_values : List ℚ) : ℚ :=
  let n := risk_values.length
  if n < 2 then 0
  else
    let x := (List.range n).map (fun i => (i : ℚ))
    let sum_x := x.sum
    let sum_y := risk_values.sum
    let sum_xy := ((x.zip risk_values).map (fun p => p.1 * p.2)).sum
    let sum_x2 := (x.map (fun v => v * v)).sum
    if (n : ℚ) * sum_x2 - sum_x ^ 2 = 0 then 0
    else
      let slope := ((n : ℚ) * sum_xy - sum_x * sum_y)
        / ((n : ℚ) * sum_x2 - sum_x ^ 2)
      max (-1) (min 1 (slope * 10))

/-- `_predict_hypoxia_risk_for_timeframe`: for at least two history points,
scale the current risk by one plus the trend of the trailing ten points
times the horizon multiplier (1.1 / 1.3 / 1.6 for 15min / 30min / any
other horizon) and clamp to [0,1]; otherwise return the current risk. -/
def predict_hypoxia_risk_for_timeframe (current_risk : ℚ)
    (hypoxia_risk_history : List RiskPoint) (timeframe : String) : ℚ :=
  if hypoxia_risk_history.length < 2 then current_risk
  else
    let recent_risks :=
      (hypoxia_risk_history.drop (hypoxia_risk_history.length - 10)).map
        (fun point => point.risk)
    let trend := calculate_risk_trend recent_risks
    let time_multiplier : ℚ :=
      if timeframe = "15min" then 11 / 10
      else if timeframe = "30min" then 13 / 10
      else 16 / 10
    let predicted_risk := current_risk * (1 + trend * time_multiplier)
    max 0 (min 1 predicted_risk)

/-- The current-risk extraction of `_generate_forecast_with_hypoxia_risk`:
the `risk` of the last history point, 0.0 for an empty history. -/
def forecastCurrentRisk (hypoxia_risk_history : List RiskPoint) : ℚ :=
  match hypoxia_risk_history.getLast? with
  | some point => point.risk
  | none => 0

/-- The predicted hypoxia risk a horizon forecast reports:
`_predict_hypoxia_risk_for_timeframe` applied to the last history value. -/
def forecastPredictedRisk (hypoxia_risk_history : List RiskPoint)
    (timeframe : String) : ℚ :=
  predict_hypoxia_risk_for_timeframe (forecastCurrentRisk hypoxia_risk_history)
    hypoxia_risk_history timeframe

/-- The base status of `_determine_forecast_status`: the predictor's
status for the horizon when the predictor result is present (its dicts
carry arbitrary strings here, defaulted to "normal" by `.get`), else
derived from the classifier codes, FIGO before NICHD, codes ≥ 2 before
codes = 1.  The classifier results are modelled by their consulted `code`
field (absent result = `none`). -/
def baseForecastStatus (ai_status : Option String)
    (figo_code nichd_code : Option ℤ) : String :=
  match ai_status with
  | some s => s
  | none =>
    if 2 ≤ figo_code.getD 0 then "danger"
    else if 2 ≤ nichd_code.getD 0 then "danger"
    else if figo_code.getD 0 = 1 then "warning"
    else if nichd_code.getD 0 = 1 then "warning"
    else "normal"

/-- `_determine_forecast_status`: hypoxia risk above 0.7 forces danger;
above 0.4 upgrades a normal base to warning and keeps any other base;
otherwise the base status stands. -/
def determine_forecast_status (ai_status : Option String)
    (figo_code nichd_code : Option ℤ) (hypoxia_risk : ℚ) : String :=
  let base_status := baseForecastStatus ai_status figo_code nichd_code
  if 7 / 10 < hypoxia_risk then "danger"
  else if 4 / 10 < hypoxia_risk then
    if base_status = "normal" then "warning" else base_status
  else base_status

/-- Severity order on forecast statuses: danger 2, warning 1, anything
else (including normal) 0. -/
def statusSeverity (status : String) : ℕ :=
  if status = "danger" then 2 else if status = "warning" then 1 else 0

/-- Claim-side definition (to be compared with the code): the ordinary
least-squares slope of a list of values against their indices 0,…,n−1,
`(n·Σxy − Σx·Σy) / (n·Σx² − (Σx)²)`. -/
def olsSlopeSpec (ys : List ℚ) : ℚ :=
  let n := ys.length
  let xs := (List.range n).map (fun i => (i : ℚ))
  ((n : ℚ) * ((xs.zip ys).map (fun p => p.1 * p.2)).sum - xs.sum * ys.sum) /
    ((n : ℚ) * (xs.map (fun v => v * v)).sum - xs.sum ^ 2)

/-- Claim-side definition: the horizon multiplier named by the claim,
1.1 / 1.3 / 1.6 for the three forecast horizons. -/
def horizonMultiplierSpec (timeframe : String) : ℚ :=
  if timeframe = "15min" then 11 / 10
  else if timeframe = "30min" then 13 / 10
  else 16 / 10

/-- Claim-side definition: predicted horizon risk as the claim words it,
`clamp(current_risk × (1 + trend × m), 0, 1)` with `current_risk` the last
history value and `trend` the OLS slope of the trailing (up to) ten
history points, scaled by 10 and clamped to [−1,1]. -/
def predictedRiskSpec (history : List RiskPoint) (timeframe : String) : ℚ :=
  let risks := history.map RiskPoint.risk
  let current_risk := (risks.getLast?).getD 0
  let trend :=
    max (-1) (min 1 (olsSlopeSpec (risks.drop (risks.length - 10)) * 10))
  max 0 (min 1 (current_risk * (1 + trend * horizonMultiplierSpec timeframe)))

/-- A concrete FHR trace used as witness input: 60 samples alternating
130/140 bpm, a 15-sample acceleration plateau at 160, one sample back at
130, and a second 15-sample plateau at 160.  Its computed baseline is 135,
its short-term variability 67/9 ≈ 7.4, with two accelerations and no
deceleration. -/
def demoSeries : List ℚ :=
  (List.replicate 30 [(130 : ℚ), 140]).join ++ List.replicate 15 160
    ++ [130] ++ List.replicate 15 160

/-- No risk factors present (risk score 0). -/
def rfNone : RiskFactors :=
  ⟨false, false, false, false, false, false, false, false⟩

/-- Diabetes and chronic hypertension present (risk score 2 + 2 = 4). -/
def rfHigh : RiskFactors :=
  ⟨true, false, true, false, false, false, false, false⟩

/-! ## Theorems -/

/-- For a `p`-sample at the head, the run lengths of the whole list are the
run lengths of the tail with the front run extended by one sample. -/
theorem runLengths_cons_pos (p : ℚ → Bool) (x : ℚ) (xs : List ℚ)
    (hx : p x = true) : runLengths p (x :: xs) = extendRuns 1 p xs := by
  cases xs with
  | nil => simp [runLengths, extendRuns, hx]
  | cons y ys =>
    by_cases hy : p y <;>
      simp [runLengths, extendRuns, hx, hy, Nat.add_comm]

/-- Extending an already open run over a `p`-sample adds one to the
accumulated length. -/
theorem extendRuns_cons_pos (p : ℚ → Bool) (x : ℚ) (xs : List ℚ) (len : ℕ)
    (hx : p x = true) :
    extendRuns len p (x :: xs) = extendRuns (len + 1) p xs := by
  cases xs with
  | nil => simp [extendRuns, runLengths, hx]
  | cons y ys =>
    by_cases hy : p y <;>
      simp [extendRuns, runLengths, hx, hy] <;> omega

/-- A non-`p`-sample at the head closes the open run of length `len`. -/
theorem extendRuns_cons_neg (p : ℚ → Bool) (x : ℚ) (xs : List ℚ) (len : ℕ)
    (hx : p x = false) :
    extendRuns len p (x :: xs) = len :: runLengths p xs := by
  simp [extendRuns, runLengths, hx]

/-- The single-pass run-detection loop computes exactly the number of
maximal `p`-runs of length at least `m` (plus the incoming count), in both
of its states. -/
theorem detectRunLoop_spec (p : ℚ → Bool) (m : ℕ) (l : List ℚ) :
    (∀ cnt, detectRunLoop p m l false 0 cnt = cnt + countLongRuns p m l) ∧
    (∀ len cnt, detectRunLoop p m l true len cnt =
      cnt + (extendRuns len p l).countP (fun k => decide (m ≤ k))) := by
  induction l with
  | nil =>
    constructor
    · intro cnt
      simp [detectRunLoop, countLongRuns, runLengths]
    · intro len cnt
      simp only [detectRunLoop, extendRuns, List.countP_cons, List.countP_nil]
      split_ifs with h1 h2 <;> simp_all <;> omega
  | cons x xs ih =>
    obtain ⟨ihF, ihT⟩ := ih
    constructor
    · intro cnt
      by_cases hx : p x
      · rw [show detectRunLoop p m (x :: xs) false 0 cnt
            = detectRunLoop p m xs true 1 cnt by simp [detectRunLoop, hx]]
        rw [ihT 1 cnt, countLongRuns, runLengths_cons_pos p x xs hx]
      · rw [show detectRunLoop p m (x :: xs) false 0 cnt
            = detectRunLoop p m xs false 0 cnt by simp [detectRunLoop, hx]]
        rw [ihF cnt]
        simp [countLongRuns, runLengths, hx]
    · intro len cnt
      by_cases hx : p x
      · rw [show detectRunLoop p m (x :: xs) true len cnt
            = detectRunLoop p m xs true (len + 1) cnt by
              simp [detectRunLoop, hx]]
        rw [ihT (len + 1) cnt, extendRuns_cons_pos p x xs len hx]
      · rw [show detectRunLoop p m (x :: xs) true len cnt
            = detectRunLoop p m xs false 0
                (if True ∧ m ≤ len then cnt + 1 else cnt) by
              simp [detectRunLoop, hx]]
        rw [ihF _, extendRuns_cons_neg p x xs len (by simpa using hx)]
        simp only [List.countP_cons, countLongRuns]
        split_ifs with h1 h2 <;> simp_all <;> omega

/-- C5: with a nonzero baseline, `detect_accelerations` counts exactly one
event per maximal contiguous run of samples at or above
baseline + threshold (threshold 10 below 32 weeks, else 15) whose length
is at least 15 samples, an open run at the end of the series included; in
particular a qualifying run of exactly 14 samples yields 0 events and one
of exactly 15 samples yields 1. -/
theorem detect_accelerations_maximal_runs (fhr_series : List ℚ)
    (baseline : ℚ) (ga_weeks : ℤ) (hb : baseline ≠ 0) :
    detect_accelerations fhr_series baseline ga_weeks =
      countLongRuns
        (fun fhr =>
          decide (baseline + (if ga_weeks < 32 then (10 : ℚ) else 15) ≤ fhr))
        15 fhr_series ∧
    detect_accelerations (List.replicate 14 (155 : ℚ)) 140 37 = 0 ∧
    detect_accelerations (List.replicate 15 (155 : ℚ)) 140 37 = 1 := by
  refine ⟨?_, by decide, by decide⟩
  by_cases he : fhr_series = []
  · simp [he, detect_accelerations, countLongRuns, runLengths]
  · simp only [detect_accelerations, he, hb, or_self, if_false, false_or,
      if_neg]
    simpa using (detectRunLoop_spec
      (fun fhr =>
        decide (baseline + (if ga_weeks < 32 then (10 : ℚ) else 15) ≤ fhr))
      15 fhr_series).1 0

/-- C5 witness: the general run-counting equation instantiated at a
concrete 15-sample plateau over baseline 140. -/
theorem detect_accelerations_maximal_runs_witness :
    detect_accelerations (List.replicate 15 (156 : ℚ)) 140 37 =
      countLongRuns (fun fhr =>
        decide ((140 : ℚ) + (if (37 : ℤ) < 32 then (10 : ℚ) else 15) ≤ fhr))
        15 (List.replicate 15 (156 : ℚ)) :=
  (detect_accelerations_maximal_runs (List.replicate 15 (156 : ℚ)) 140 37
    (by norm_num)).1

/-- C6 counterexample: at 28 weeks of gestation the claimed symmetric,
gestational-age-dependent deceleration threshold (10 bpm) would count the
15-sample plateau at 128 under baseline 140 as one deceleration, but
`detect_decelerations`, as the classifiers call it, uses its fixed default
threshold of 15 and reports none, while the mirror-image acceleration
input is counted (threshold 10). -/
theorem decel_ga_threshold_counterexample :
    detect_decelerations (List.replicate 15 (128 : ℚ)) 140 = 0 ∧
    countLongRuns
      (fun fhr =>
        decide (fhr ≤ 140 - (if (28 : ℤ) < 32 then (10 : ℚ) else 15)))
      15 (List.replicate 15 (128 : ℚ)) = 1 ∧
    detect_accelerations (List.replicate 15 (152 : ℚ)) 140 28 = 1 := by
  decide

/-- C6 (amended): with a nonzero baseline, `detect_decelerations` counts
exactly one event per maximal contiguous run of samples at or below
baseline − threshold of length at least 15 samples (open run at the end
included) — symmetric to acceleration detection in its run logic — but
its threshold is the function's own parameter, defaulting to 15; both
classifiers call it with that default, independent of gestational age. -/
theorem detect_decelerations_maximal_runs (fhr_series : List ℚ)
    (baseline threshold : ℚ) (hb : baseline ≠ 0) :
    detect_decelerations fhr_series baseline threshold =
      countLongRuns (fun fhr => decide (fhr ≤ baseline - threshold)) 15
        fhr_series ∧
    (∀ (rf : RiskFactors) (ga_weeks : ℤ),
      (classify_figo fhr_series rf ga_weeks).decelerations =
        detect_decelerations fhr_series (calc_baseline fhr_series) 15 ∧
      (classify_nichd fhr_series rf ga_weeks).decelerations_count =
        detect_decelerations fhr_series (calc_baseline fhr_series) 15) := by
  refine ⟨?_, fun rf ga_weeks => ⟨rfl, rfl⟩⟩
  by_cases he : fhr_series = []
  · simp [he, detect_decelerations, countLongRuns, runLengths]
  · simp only [detect_decelerations, he, hb, or_self, if_false, false_or,
      if_neg]
    simpa using (detectRunLoop_spec
      (fun fhr => decide (fhr ≤ baseline - threshold)) 15 fhr_series).1 0

/-- C6 witness: the amended run-counting equation instantiated at a
concrete 15-sample dip to 124 under baseline 140. -/
theorem detect_decelerations_maximal_runs_witness :
    detect_decelerations (List.replicate 15 (124 : ℚ)) 140 15 =
      countLongRuns (fun fhr => decide (fhr ≤ (140 : ℚ) - 15)) 15
        (List.replicate 15 (124 : ℚ)) :=
  (detect_decelerations_maximal_runs (List.replicate 15 (124 : ℚ)) 140 15
    (by norm_num)).1

/-- C8: the statistic primitives return 0.0 on empty input rather than
failing — `calc_baseline [] = 0`, `calculate_variability [] = 0` — and
`calc_baseline` on twenty samples at 150 returns exactly 150. -/
theorem empty_input_primitives :
    calc_baseline ([] : List ℚ) = 0 ∧
    calculate_variability ([] : List ℚ) = 0 ∧
    calc_baseline (List.replicate 20 (150 : ℚ)) = 150 := by
  decide

/-- C9: on any non-empty series whose samples all lie outside [50, 200],
the outlier filter of `calc_baseline` leaves nothing and the explicit
empty-filter guard returns 0.0 — no median of an empty list is ever
attempted, so the function is total there. -/
theorem calc_baseline_out_of_range_guard (fhr_series : List ℚ)
    (hne : fhr_series ≠ [])
    (hout : ∀ fhr ∈ fhr_series, fhr < 50 ∨ 200 < fhr) :
    fhr_series.filter (fun fhr => decide (50 ≤ fhr ∧ fhr ≤ 200)) = [] ∧
    calc_baseline fhr_series = 0 := by
  have hfil : fhr_series.filter
      (fun fhr => decide (50 ≤ fhr ∧ fhr ≤ 200)) = [] := by
    rw [List.filter_eq_nil_iff]
    intro a ha
    rcases hout a ha with h | h <;> simp <;> intro <;> linarith
  refine ⟨hfil, ?_⟩
  simp only [calc_baseline, hfil, if_neg hne]
  simp

/-- C9 witness: the guard at the concrete one-sample series [300]. -/
theorem calc_baseline_out_of_range_guard_witness :
    [(300 : ℚ)].filter (fun fhr => decide (50 ≤ fhr ∧ fhr ≤ 200)) = [] ∧
    calc_baseline [(300 : ℚ)] = 0 :=
  calc_baseline_out_of_range_guard [(300 : ℚ)] (by simp)
    (by intro fhr h; simp at h; subst h; norm_num)

/-- C2: on the three valid labels of each standard, a risk score of at
least 4 escalates the classification by exactly one severity step (ceiling
fixed at the top), a risk score below 4 leaves the label unchanged, and in
all cases the adjusted code never falls below the base code. -/
theorem risk_adjustment_one_step_escalation (figo_label nichd_label : String)
    (risk_score : ℤ)
    (hf : figo_label ∈ ["Normal", "Suspicious", "Pathological"])
    (hn2 : nichd_label ∈ ["Category I", "Category II", "Category III"]) :
    ((adjust_figo_classification figo_label risk_score).code =
      if 4 ≤ risk_score then min (figoCodeMap figo_label + 1) 2
      else figoCodeMap figo_label) ∧
    (risk_score < 4 →
      (adjust_figo_classification figo_label risk_score).adjusted_label =
        figo_label) ∧
    figoCodeMap figo_label ≤
      (adjust_figo_classification figo_label risk_score).code ∧
    ((adjust_nichd_classification nichd_label risk_score).code =
      if 4 ≤ risk_score then min (nichdCodeMap nichd_label + 1) 2
      else nichdCodeMap nichd_label) ∧
    (risk_score < 4 →
      (adjust_nichd_classification nichd_label risk_score).adjusted_label =
        nichd_label) ∧
    nichdCodeMap nichd_label ≤
      (adjust_nichd_classification nichd_label risk_score).code := by
  fin_cases hf <;> fin_cases hn2 <;> by_cases hr : 4 ≤ risk_score <;>
    simp [adjust_figo_classification, adjust_nichd_classification,
      figoCodeMap, nichdCodeMap, hr] <;> omega

/-- C2 witness: escalation at Normal / Category I with risk score 5. -/
theorem risk_adjustment_one_step_escalation_witness :
    ((adjust_figo_classification "Normal" 5).code =
      if (4 : ℤ) ≤ 5 then min (figoCodeMap "Normal" + 1) 2
      else figoCodeMap "Normal") ∧
    ((5 : ℤ) < 4 →
      (adjust_figo_classification "Normal" 5).adjusted_label = "Normal") ∧
    figoCodeMap "Normal" ≤ (adjust_figo_classification "Normal" 5).code ∧
    ((adjust_nichd_classification "Category I" 5).code =
      if (4 : ℤ) ≤ 5 then min (nichdCodeMap "Category I" + 1) 2
      else nichdCodeMap "Category I") ∧
    ((5 : ℤ) < 4 →
      (adjust_nichd_classification "Category I" 5).adjusted_label =
        "Category I") ∧
    nichdCodeMap "Category I" ≤
      (adjust_nichd_classification "Category I" 5).code :=
  risk_adjustment_one_step_escalation "Normal" "Category I" 5 (by simp)
    (by simp)

/-- C1: the forecast status never downgrades the base status — a predicted
hypoxia risk above 0.7 forces danger; a risk in (0.4, 0.7] turns a normal
base into warning and returns any other base unchanged; and for every risk
the final status is at least as severe as the base status (the predictor's
horizon status when present, else the status derived from the classifier
codes, FIGO before NICHD). -/
theorem forecast_status_monotone_escalation (ai_status : Option String)
    (figo_code nichd_code : Option ℤ) (hypoxia_risk : ℚ) :
    (7 / 10 < hypoxia_risk →
      determine_forecast_status ai_status figo_code nichd_code hypoxia_risk =
        "danger") ∧
    (4 / 10 < hypoxia_risk → hypoxia_risk ≤ 7 / 10 →
      determine_forecast_status ai_status figo_code nichd_code hypoxia_risk =
        (if baseForecastStatus ai_status figo_code nichd_code = "normal"
         then "warning"
         else baseForecastStatus ai_status figo_code nichd_code)) ∧
    statusSeverity (baseForecastStatus ai_status figo_code nichd_code) ≤
      statusSeverity
        (determine_forecast_status ai_status figo_code nichd_code
          hypoxia_risk) := by
  refine ⟨fun h => by simp [determine_forecast_status, h], fun h1 h2 => by
    unfold determine_forecast_status
    rw [if_neg (not_lt.2 h2), if_pos h1], ?_⟩
  unfold determine_forecast_status
  by_cases h1 : 7 / 10 < hypoxia_risk
  · rw [if_pos h1]
    have hle : statusSeverity (baseForecastStatus ai_status figo_code
        nichd_code) ≤ 2 := by
      unfold statusSeverity
      split_ifs <;> omega
    simpa [statusSeverity] using hle
  · rw [if_neg h1]
    by_cases h2 : 4 / 10 < hypoxia_risk
    · rw [if_pos h2]
      by_cases h3 : baseForecastStatus ai_status figo_code nichd_code =
          "normal"
      · rw [if_pos h3]
        simp [statusSeverity, h3]
      · rw [if_neg h3]
    · rw [if_neg h2]

/-- C1 witness: a warning base with risk 0.8 is forced to danger. -/
theorem forecast_status_monotone_escalation_witness :
    determine_forecast_status (some "warning") none none (8 / 10) =
      "danger" :=
  (forecast_status_monotone_escalation (some "warning") none none
    (8 / 10)).1 (by norm_num)

/-- Rounding to the nearest integer with ties to even is monotone. -/
theorem roundHalfEven_mono {x y : ℚ} (h : x ≤ y) :
    roundHalfEven x ≤ roundHalfEven y := by
  have hf : ⌊x⌋ ≤ ⌊y⌋ := Int.floor_le_floor h
  rcases lt_or_eq_of_le hf with hlt | heq
  · have h1 : roundHalfEven x ≤ ⌊x⌋ + 1 := by
      unfold roundHalfEven
      split_ifs <;> omega
    have h2 : ⌊y⌋ ≤ roundHalfEven y := by
      unfold roundHalfEven
      split_ifs <;> omega
    omega
  · have hcast : (⌊x⌋ : ℚ) = (⌊y⌋ : ℚ) := by exact_mod_cast heq
    have hfr : Int.fract x ≤ Int.fract y := by
      simp only [Int.fract]
      linarith
    unfold roundHalfEven
    split_ifs <;> first | omega | (exfalso; linarith)

/-- Python's two-decimal rounding is monotone. -/
theorem pyRound2_mono {x y : ℚ} (h : x ≤ y) : pyRound2 x ≤ pyRound2 y := by
  unfold pyRound2
  have hr : roundHalfEven (x * 100) ≤ roundHalfEven (y * 100) :=
    roundHalfEven_mono (by linarith)
  have : ((roundHalfEven (x * 100) : ℚ)) ≤ (roundHalfEven (y * 100) : ℚ) := by
    exact_mod_cast hr
  linarith

/-- C10: for any fixed feature vector, the predictor's reported risk level
is non-decreasing in the horizon: 15min ≤ 30min ≤ 60min.  The same
accumulated risk is scaled by 1.0, 1.2 and 1.5 before the final clamp to
[0,1], and clamping and two-decimal rounding are monotone. -/
theorem predictor_risk_monotone_in_horizon (features : Features) :
    (predict_timeframe features "15min").risk_level ≤
      (predict_timeframe features "30min").risk_level ∧
    (predict_timeframe features "30min").risk_level ≤
      (predict_timeframe features "60min").risk_level := by
  have e15 : (predict_timeframe features "15min").risk_level =
      pyRound2 (min (max (accumulatedRisk features) 0) 1) := by
    simp [predict_timeframe]
  have e30 : (predict_timeframe features "30min").risk_level =
      pyRound2 (min (max (accumulatedRisk features * (12 / 10)) 0) 1) := by
    simp [predict_timeframe]
  have e60 : (predict_timeframe features "60min").risk_level =
      pyRound2 (min (max (accumulatedRisk features * (15 / 10)) 0) 1) := by
    simp [predict_timeframe]
  set r := accumulatedRisk features with hrdef
  have h1 : min (max r 0) 1 ≤ min (max (r * (12 / 10)) 0) 1 := by
    rcases le_or_lt 0 r with hr | hr
    · exact min_le_min (max_le_max (by linarith) (le_refl 0)) (le_refl 1)
    · rw [max_eq_right hr.le, max_eq_right (by nlinarith : r * (12 / 10) ≤ 0)]
  have h2 : min (max (r * (12 / 10)) 0) 1 ≤ min (max (r * (15 / 10)) 0) 1 := by
    rcases le_or_lt 0 r with hr | hr
    · exact min_le_min (max_le_max (by nlinarith) (le_refl 0)) (le_refl 1)
    · rw [max_eq_right (by nlinarith : r * (12 / 10) ≤ 0),
        max_eq_right (by nlinarith : r * (15 / 10) ≤ 0)]
  rw [e15, e30, e60]
  exact ⟨pyRound2_mono h1, pyRound2_mono h2⟩

set_option maxRecDepth 200000 in
/-- C3 counterexample: `demoSeries` satisfies every hypothesis of the
claim (baseline 135 ∈ [110,160], short-term variability ≈7.4 ∈ [5,25],
two accelerations, no deceleration), yet with the risk-factor set
{diabetes, hypertension} (risk score 4) the classifiers do apply the risk
escalation and return Suspicious(1) / Category II(1), not Normal(0) /
Category I(0): the claim fails for risk-factor sets scoring ≥ 4. -/
theorem figo_normal_claim_counterexample :
    110 ≤ calc_baseline demoSeries ∧ calc_baseline demoSeries ≤ 160 ∧
    5 ≤ calculate_variability demoSeries ∧
    calculate_variability demoSeries ≤ 25 ∧
    2 ≤ detect_accelerations demoSeries (calc_baseline demoSeries) 37 ∧
    detect_decelerations demoSeries (calc_baseline demoSeries) = 0 ∧
    (classify_figo demoSeries rfHigh 37).final_label = "Suspicious" ∧
    (classify_figo demoSeries rfHigh 37).final_code = 1 ∧
    (classify_nichd demoSeries rfHigh 37).final_label = "Category II" ∧
    (classify_nichd demoSeries rfHigh 37).final_code = 1 ∧
    (classify_figo demoSeries rfHigh 37).adjustment_applied = true := by
  decide

/-- C3 (amended): for every FHR series, gestational age and risk-factor
set whose risk score is below 4, if the computed baseline lies in
[110,160], the short-term variability in [5,25], at least two
accelerations and no deceleration are detected, then FIGO returns Normal
with code 0, NICHD returns Category I with code 0, and no risk escalation
is applied. -/
theorem normal_trace_classification (fhr_series : List ℚ)
    (rf : RiskFactors) (ga_weeks : ℤ)
    (hb1 : 110 ≤ calc_baseline fhr_series)
    (hb2 : calc_baseline fhr_series ≤ 160)
    (hv1 : 5 ≤ calculate_variability fhr_series)
    (hv2 : calculate_variability fhr_series ≤ 25)
    (ha : 2 ≤ detect_accelerations fhr_series (calc_baseline fhr_series)
      ga_weeks)
    (hd : detect_decelerations fhr_series (calc_baseline fhr_series) = 0)
    (hr : calculate_risk_score rf < 4) :
    (classify_figo fhr_series rf ga_weeks).final_label = "Normal" ∧
    (classify_figo fhr_series rf ga_weeks).final_code = 0 ∧
    (classify_figo fhr_series rf ga_weeks).adjustment_applied = false ∧
    (classify_nichd fhr_series rf ga_weeks).final_label = "Category I" ∧
    (classify_nichd fhr_series rf ga_weeks).final_code = 0 ∧
    (classify_nichd fhr_series rf ga_weeks).adjustment_applied = false := by
  have hvc : classify_variability (calculate_variability fhr_series) =
      "moderate" := by
    unfold classify_variability
    rw [if_neg (by intro h0; rw [h0] at hv1; norm_num at hv1),
      if_neg (by linarith), if_pos ⟨hv1, hv2⟩]
  have hbe : evaluate_baseline (calc_baseline fhr_series) = "reassuring" := by
    unfold evaluate_baseline
    rw [if_pos ⟨hb1, hb2⟩]
  have hae : evaluate_accelerations
      (detect_accelerations fhr_series (calc_baseline fhr_series) ga_weeks) =
      "reassuring" := by
    unfold evaluate_accelerations
    rw [if_pos ha]
  have hnr : ¬(4 ≤ calculate_risk_score rf) := by omega
  refine ⟨?_, ?_, ?_, ?_, ?_, ?_⟩ <;>
    simp [classify_figo, classify_nichd, hbe, hae, hvc, hd,
      evaluate_variability, evaluate_decelerations, figoBaseClassification,
      classify_nichd_category, adjust_figo_classification,
      adjust_nichd_classification, figoCodeMap, nichdCodeMap, hnr, hb1, hb2]

set_option maxRecDepth 200000 in
/-- C3 witness: the amended statement at `demoSeries` with no risk
factors. -/
theorem normal_trace_classification_witness :
    (classify_figo demoSeries rfNone 37).final_label = "Normal" ∧
    (classify_figo demoSeries rfNone 37).final_code = 0 ∧
    (classify_figo demoSeries rfNone 37).adjustment_applied = false ∧
    (classify_nichd demoSeries rfNone 37).final_label = "Category I" ∧
    (classify_nichd demoSeries rfNone 37).final_code = 0 ∧
    (classify_nichd demoSeries rfNone 37).adjustment_applied = false :=
  normal_trace_classification demoSeries rfNone 37 (by decide) (by decide)
    (by decide) (by decide) (by decide) (by decide) (by decide)

/-- `range(start, stop, 60)` produces ⌈(stop − start)/60⌉ indices. -/
theorem pyRange_sixty_length (n : ℕ) :
    ∀ (start : ℕ) (stop : ℤ), (stop - start).toNat = n →
      (pyRange start stop 60).length = (n + 59) / 60 := by
  induction n using Nat.strong_induction_on with
  | _ n ih =>
    intro start stop hn
    rw [pyRange]
    split_ifs with hc
    · have h60 : (stop - ((start + 60 : ℕ) : ℤ)).toNat < n := by
        push_cast
        omega
      rw [List.length_cons, ih _ h60 (start + 60) stop rfl]
      push_cast at hn hc h60
      omega
    · simp only [List.length_nil]
      omega

/-- C7: for aligned FHR, UC and timestamp series, the default 2-minute
window with 1-minute step yields exactly ⌊(n − 120)/60⌋ + 1 hypoxia-risk
windows for n ≥ 120 samples, and the empty list for n < 120. -/
theorem hypoxia_risk_window_count (fhr_series uc_series time_series : List ℚ)
    (variability_value : ℚ)
    (hu : uc_series.length = fhr_series.length)
    (ht : time_series.length = fhr_series.length) :
    (120 ≤ fhr_series.length →
      (calculate_hypoxia_risk fhr_series uc_series variability_value
        time_series).length = (fhr_series.length - 120) / 60 + 1) ∧
    (fhr_series.length < 120 →
      calculate_hypoxia_risk fhr_series uc_series variability_value
        time_series = []) := by
  constructor
  · intro h
    simp only [calculate_hypoxia_risk, List.length_map]
    norm_num
    rw [pyRange_sixty_length (((fhr_series.length : ℤ) - 120 + 1) -
      ((0 : ℕ) : ℤ)).toNat 0 ((fhr_series.length : ℤ) - 120 + 1) rfl]
    omega
  · intro h
    simp only [calculate_hypoxia_risk]
    norm_num
    rw [pyRange]
    rw [dif_neg (by push_cast; omega)]

set_option maxRecDepth 40000 in
/-- C7 witness: a 300-sample trace yields exactly 4 windows,
⌊(300 − 120)/60⌋ + 1. -/
theorem hypoxia_risk_window_count_witness :
    (calculate_hypoxia_risk (List.replicate 300 (140 : ℚ))
      (List.replicate 300 (10 : ℚ)) 6 (List.replicate 300 (0 : ℚ))).length =
      (300 - 120) / 60 + 1 :=
  (hypoxia_risk_window_count (List.replicate 300 (140 : ℚ))
    (List.replicate 300 (10 : ℚ)) (List.replicate 300 (0 : ℚ)) 6
    (by simp) (by simp)).1 (by simp)

/-- The least-squares denominator n·Σx² − (Σx)² over indices 0,…,n−1 is
nonzero for every n between 2 and 10, so the degenerate-denominator guard
of `calculate_risk_trend` never fires on the trailing history window. -/
theorem olsDenom_ne (n : ℕ) (h2 : 2 ≤ n) (h10 : n ≤ 10) :
    ((n : ℚ) * ((((List.range n).map (fun i => (i : ℚ))).map
        (fun v => v * v)).sum)
      - (((List.range n).map (fun i => (i : ℚ))).sum) ^ 2) ≠ 0 := by
  interval_cases n <;> decide

/-- For 2 to 10 points, `_calculate_risk_trend` is exactly the
least-squares slope scaled by 10 and clamped to [−1, 1]. -/
theorem calculate_risk_trend_closed (ys : List ℚ) (h2 : 2 ≤ ys.length)
    (h10 : ys.length ≤ 10) :
    calculate_risk_trend ys = max (-1) (min 1 (olsSlopeSpec ys * 10)) := by
  unfold calculate_risk_trend olsSlopeSpec
  rw [if_neg (by omega)]
  rw [if_neg (olsDenom_ne ys.length h2 h10)]

/-- C4: for a hypoxia-risk history of at least two points and each of the
three horizons, the predicted risk the forecast reports equals
clamp(current_risk × (1 + trend × m), 0, 1), where current_risk is the
last history value, m is 1.1 / 1.3 / 1.6 for 15 / 30 / 60 minutes, and
trend is the least-squares slope of the trailing (up to) ten history
points, scaled by 10 and clamped to [−1, 1]. -/
theorem predicted_horizon_risk_closed_form (history : List RiskPoint)
    (timeframe : String) (hlen : 2 ≤ history.length)
    (htf : timeframe ∈ ["15min", "30min", "60min"]) :
    forecastPredictedRisk history timeframe =
      predictedRiskSpec history timeframe := by
  unfold forecastPredictedRisk predict_hypoxia_risk_for_timeframe
  rw [if_neg (by omega)]
  dsimp only
  have hl2 : 2 ≤ ((history.drop (history.length - 10)).map
      RiskPoint.risk).length := by
    simp only [List.length_map, List.length_drop]
    omega
  have hl10 : ((history.drop (history.length - 10)).map
      RiskPoint.risk).length ≤ 10 := by
    simp only [List.length_map, List.length_drop]
    omega
  rw [calculate_risk_trend_closed _ hl2 hl10]
  have hlist : (history.drop (history.length - 10)).map RiskPoint.risk =
      (history.map RiskPoint.risk).drop
        ((history.map RiskPoint.risk).length - 10) := by
    rw [List.map_drop, List.length_map]
  have hcur : forecastCurrentRisk history =
      ((history.map RiskPoint.risk).getLast?).getD 0 := by
    unfold forecastCurrentRisk
    rw [List.getLast?_map]
    cases history.getLast? <;> simp
  unfold predictedRiskSpec horizonMultiplierSpec
  rw [hcur, hlist]

/-- C4 witness: the closed form at a concrete two-point history for the
30-minute horizon. -/
theorem predicted_horizon_risk_closed_form_witness :
    forecastPredictedRisk [⟨0, 1 / 2⟩, ⟨60, 3 / 5⟩] "30min" =
      predictedRiskSpec [⟨0, 1 / 2⟩, ⟨60, 3 / 5⟩] "30min" :=
  predicted_horizon_risk_closed_form [⟨0, 1 / 2⟩, ⟨60, 3 / 5⟩] "30min"
    (by simp) (by simp)

end CTG
